import Mathlib

/-!
Shallow embedding of the OTA web updater core (`otaWebUpdater.cpp`):
the scheduled download path `updateFile` / `executeUpdate`, the manual
upload handler, the version check `checkAvailableVersion`, the scheduler
`loop`, the configuration setter `setVersionCheckInterval`, and the
GET config route.  Network traffic, HTTP results and allocation success
are passed in explicitly; flash-side effects (`Update.begin`,
`Update.write`, `Update.end`) are recorded as an event trace.
-/

/-- Firmware image kind: `U_FLASH` is the application partition,
`U_SPIFFS` the data/filesystem partition (constants of the Arduino
`Update` library). -/
inductive FileType
  | U_FLASH
  | U_SPIFFS
deriving DecidableEq, Repr

/-- Flash-side effect of the Arduino `Update` library, as recorded while
running the embedded code: an invocation of `Update.begin`, of
`Update.write` with a byte count, or of `Update.end`. -/
inductive OtaEvent
  | updateBegin (filetype : FileType)
  | updateWrite (len : Nat)
  | updateEnd
deriving DecidableEq, Repr

/-- Substring test, embedding Arduino `String::indexOf(sub) > -1`. -/
def containsSub (hay needle : String) : Bool :=
  decide (needle.data <:+: hay.data)

/-- Choice of target partition from the filename
(`otaWebUpdater.cpp` lines 327 and 491): a filename containing
`spiffs` or `littlefs` selects `U_SPIFFS`, anything else `U_FLASH`. -/
def fileTypeOf (filename : String) : FileType :=
  if containsSub filename "spiffs" || containsSub filename "littlefs" then
    FileType.U_SPIFFS
  else
    FileType.U_FLASH

/-- Staging buffer capacity allocated by `updateFile`
(`auto bufferAllocationLen = 128*1024`). -/
def bufferAllocationLen : Nat := 128 * 1024

/-- An HTTP response for a firmware download: the status code of the GET,
the declared size (`http.getSize()`, `-1` when the server sends no
Content-Length header), and the sizes reported by successive
`stream->available()` polls while the connection stays open; the
connection counts as closed once the list is exhausted. -/
structure HttpResponse where
  status : Int
  size : Int
  chunks : List Nat
deriving DecidableEq, Repr

/-- Chunk-read loop of `updateFile` (`otaWebUpdater.cpp` lines 530..554):
`while (http.connected() && (len > 0 || len == -1))` polls
`stream->available()`, reads at most `bufferAllocationLen` bytes,
decrements `len` when positive, writes the chunk, and finalizes
(`Update.end(true)`, return `true`) exactly when the accumulated
`currentLength` equals `totalLength`.  Returns the finalize flag and the
list of write sizes passed to `Update.write`. -/
def updateLoop (totalLength : Int) : List Nat → Int → Int → Bool × List Nat
  | [], _, _ => (false, [])
  | size :: rest, len, currentLength =>
    if len > 0 ∨ len = -1 then
      if size ≠ 0 then
        let readBufLen : Nat := min size bufferAllocationLen
        let len' : Int := if len > 0 then len - readBufLen else len
        let cur' : Int := currentLength + readBufLen
        if cur' = totalLength then (true, [readBufLen])
        else
          let r := updateLoop totalLength rest len' cur'
          (r.1, readBufLen :: r.2)
      else
        updateLoop totalLength rest len currentLength
    else (false, [])

/-- Result of one `updateFile` call: its boolean return value, the value
of the member `otaIsRunning` when the call returns, and the trace of
`Update` invocations it performed. -/
structure UpdateFileResult where
  ret : Bool
  otaIsRunning : Bool
  events : List OtaEvent
deriving DecidableEq, Repr

/-- Embedding of `OTAWEBUPDATER::updateFile` (`otaWebUpdater.cpp` lines
484..560).  `otaIsRunning0` is the value of the member `otaIsRunning` on
entry, `allocOk` tells whether `new uint8_t[128*1024]` succeeds, and
`resp` is the HTTP response for the firmware URL.  The function returns
`false` on an empty base URL (flag untouched), on allocation failure, on
a non-200 status, or when the loop exits without finalizing; it returns
`true` only from the finalize branch inside the loop.  Every path past
the empty-URL check ends with `otaIsRunning = false`. -/
def updateFile (otaIsRunning0 allocOk : Bool) (baseUrl filename : String)
    (resp : HttpResponse) : UpdateFileResult :=
  if baseUrl.isEmpty then
    { ret := false, otaIsRunning := otaIsRunning0, events := [] }
  else
    -- otaIsRunning = true; filetype from the filename
    let filetype := fileTypeOf filename
    if !allocOk then
      { ret := false, otaIsRunning := false, events := [] }
    else if resp.status = 200 then
      let r := updateLoop resp.size resp.chunks resp.size 0
      let writes := r.2.map OtaEvent.updateWrite
      if r.1 then
        { ret := true, otaIsRunning := false,
          events := OtaEvent.updateBegin filetype :: (writes ++ [OtaEvent.updateEnd]) }
      else
        { ret := false, otaIsRunning := false,
          events := OtaEvent.updateBegin filetype :: writes }
    else
      { ret := false, otaIsRunning := false, events := [] }

/-- Sum of a list of chunk sizes, as an integer (the role of
`currentLength` in the chunk-read loop). -/
def sumW : List Nat → Int
  | [] => 0
  | n :: rest => (n : Int) + sumW rest

/-- Total number of bytes passed to `Update.write` in an event trace. -/
def writtenTotal : List OtaEvent → Int
  | [] => 0
  | OtaEvent.updateWrite n :: rest => (n : Int) + writtenTotal rest
  | _ :: rest => writtenTotal rest

/-- Environment for one `updateFile` call made by `executeUpdate`:
whether the staging-buffer allocation succeeds, and the HTTP response
served for the requested file. -/
structure Env where
  allocOk : Bool
  resp : HttpResponse
deriving DecidableEq, Repr

/-- Result of one `executeUpdate` call: the transfers attempted in
order (filename paired with the boolean result of `updateFile`), how
many times `ESP.restart()` was invoked, the final value of
`otaIsRunning`, and whether the failure log line
`"[OTA] Failed to update firmware"` was emitted. -/
structure ExecResult where
  transfers : List (String × Bool)
  restarts : Nat
  otaIsRunning : Bool
  failureLogged : Bool
deriving DecidableEq, Repr

/-- Embedding of `OTAWEBUPDATER::executeUpdate` (`otaWebUpdater.cpp`
lines 565..578): on an empty base URL it returns at once; otherwise it
sets `otaIsRunning`, downloads `littlefs.bin`, then — only if that
succeeded (`&&` short-circuits) — `firmware.bin`; if both succeed it
calls `ESP.restart()`, else it clears `otaIsRunning` and logs the
failure.  `env1` drives the `littlefs.bin` call, `env2` the
`firmware.bin` call. -/
def executeUpdate (otaIsRunning0 : Bool) (baseUrl : String)
    (env1 env2 : Env) : ExecResult :=
  if baseUrl.isEmpty then
    { transfers := [], restarts := 0, otaIsRunning := otaIsRunning0,
      failureLogged := false }
  else
    let r1 := updateFile true env1.allocOk baseUrl "littlefs.bin" env1.resp
    if r1.ret then
      let r2 := updateFile r1.otaIsRunning env2.allocOk baseUrl "firmware.bin" env2.resp
      if r2.ret then
        { transfers := [("littlefs.bin", true), ("firmware.bin", true)],
          restarts := 1, otaIsRunning := r2.otaIsRunning, failureLogged := false }
      else
        { transfers := [("littlefs.bin", true), ("firmware.bin", false)],
          restarts := 0, otaIsRunning := false, failureLogged := true }
    else
      { transfers := [("littlefs.bin", false)], restarts := 0,
        otaIsRunning := false, failureLogged := true }

/-- Environment for one invocation of the manual upload handler:
whether `Update.begin`, `Update.write` (returning the full length) and
`Update.end(true)` succeed. -/
structure UploadEnv where
  beginOk : Bool
  writeOk : Bool
  endOk : Bool
deriving DecidableEq, Repr

/-- Result of one invocation of the upload handler: the final value of
`otaIsRunning`, the HTTP status codes sent (in order), the trace of
`Update` invocations, and whether `ESP.restart()` was reached. -/
structure UploadResult where
  otaIsRunning : Bool
  responses : List Nat
  events : List OtaEvent
  restarted : Bool
deriving DecidableEq, Repr

/-- Embedding of the `/upload` POST upload handler registered by
`OTAWEBUPDATER::attachWebServer` (`otaWebUpdater.cpp` lines 312..364).
`passwordSet` is `otaPassword.length() != 0` and `authOk` the result of
`request->authenticate`; a failed authentication answers 401 and does
nothing else.  On `index == 0` the handler sets `otaIsRunning` and calls
`Update.begin` (answering 500 and clearing the flag if that fails — note
the source does not return there); then it always calls `Update.write`;
on the final chunk it calls `Update.end(true)` and either answers 200
and restarts or answers 500 and clears the flag. -/
def uploadChunk (otaIsRunning0 passwordSet authOk : Bool)
    (filename : String) (index len : Nat) (finalChunk : Bool)
    (env : UploadEnv) : UploadResult :=
  if passwordSet && !authOk then
    { otaIsRunning := otaIsRunning0, responses := [401], events := [],
      restarted := false }
  else
    let p1 : Bool × List Nat × List OtaEvent :=
      if index = 0 then
        if env.beginOk then
          (true, [], [OtaEvent.updateBegin (fileTypeOf filename)])
        else
          (false, [500], [OtaEvent.updateBegin (fileTypeOf filename)])
      else (otaIsRunning0, [], [])
    let p2 : Bool × List Nat × List OtaEvent :=
      if env.writeOk then
        (p1.1, p1.2.1, p1.2.2 ++ [OtaEvent.updateWrite len])
      else
        (false, p1.2.1 ++ [500], p1.2.2 ++ [OtaEvent.updateWrite len])
    if finalChunk then
      if env.endOk then
        { otaIsRunning := p2.1, responses := p2.2.1 ++ [200],
          events := p2.2.2 ++ [OtaEvent.updateEnd], restarted := true }
      else
        { otaIsRunning := false, responses := p2.2.1 ++ [500],
          events := p2.2.2 ++ [OtaEvent.updateEnd], restarted := false }
    else
      { otaIsRunning := p2.1, responses := p2.2.1, events := p2.2.2,
        restarted := false }

/-- Lexicographic strict order on character lists, comparing code
points, mirroring C `strcmp` on ASCII strings. -/
def charListLt : List Char → List Char → Bool
  | [], [] => false
  | [], _ :: _ => true
  | _ :: _, [] => false
  | a :: as, b :: bs =>
    if a.toNat < b.toNat then true
    else if b.toNat < a.toNat then false
    else charListLt as bs

/-- Strict string order used by Arduino `String::operator>` (which is
`compareTo`, i.e. `strcmp`): `strLt a b` holds when `a` is strictly
smaller than `b` byte-wise (identical on the ASCII date strings the
updater compares). -/
def strLt (a b : String) : Bool :=
  charListLt a.data b.data

/-- Result of one `checkAvailableVersion` call: its boolean return value
and the value of the member `newReleaseAvailable` afterwards. -/
structure CheckResult where
  ret : Bool
  newReleaseAvailable : Bool
deriving DecidableEq, Repr

/-- Embedding of `OTAWEBUPDATER::checkAvailableVersion`
(`otaWebUpdater.cpp` lines 439..474).  `date` and `revision` are the
strings produced by `doc["date"].as<String>()` and
`doc["revision"].as<String>()`; an absent field yields the literal
string `"null"` (ArduinoJson renders a null variant that way, which is
what the source's `== "null"` test is for).  An empty base URL or an
invalid response returns `false` without touching state; otherwise
`newReleaseAvailable` is set exactly when `date > currentFwDate`
(Arduino `String` comparison is byte-wise `strcmp`, embedded here as
`strLt currentFwDate date`) and the call returns `true`. -/
def checkAvailableVersion (baseUrl currentFwDate : String)
    (newReleaseAvailable0 : Bool) (date revision : String) : CheckResult :=
  if baseUrl.isEmpty then
    { ret := false, newReleaseAvailable := newReleaseAvailable0 }
  else if date.isEmpty || revision.isEmpty || date == "null" || revision == "null" then
    { ret := false, newReleaseAvailable := newReleaseAvailable0 }
  else if strLt currentFwDate date then
    { ret := true, newReleaseAvailable := true }
  else
    { ret := true, newReleaseAvailable := newReleaseAvailable0 }

/-- State read and written by `OTAWEBUPDATER::loop` (the member
`otaIsRunning` is absent because `loop` never reads it). -/
structure LoopState where
  newReleaseAvailable : Bool
  networkReady : Bool
  initialCheck : Bool
  lastVersionCheckMillis : Nat
  intervalVersionCheckMillis : Nat
  baseUrl : String
deriving DecidableEq, Repr

/-- Decisions taken by one `loop` tick: whether `executeUpdate` runs,
whether `checkAvailableVersion` runs, and the updated `initialCheck` /
`lastVersionCheckMillis` members. -/
structure LoopResult where
  runsExecuteUpdate : Bool
  runsVersionCheck : Bool
  initialCheck : Bool
  lastVersionCheckMillis : Nat
deriving DecidableEq, Repr

/-- Embedding of `OTAWEBUPDATER::loop` (`otaWebUpdater.cpp` lines
419..432).  `now` is the value of `millis()` (a 32-bit tick count); the
difference `millis() - lastVersionCheckMillis` is computed in unsigned
64-bit arithmetic as in the source (`lastVersionCheckMillis` is a
`uint64_t`). -/
def loopTick (s : LoopState) (now : Nat) : LoopResult :=
  let runsExec := s.newReleaseAvailable
  if s.networkReady then
    if s.initialCheck then
      if (now % 2 ^ 64 + 2 ^ 64 - s.lastVersionCheckMillis % 2 ^ 64) % 2 ^ 64
          < s.intervalVersionCheckMillis then
        { runsExecuteUpdate := runsExec, runsVersionCheck := false,
          initialCheck := s.initialCheck,
          lastVersionCheckMillis := s.lastVersionCheckMillis }
      else if s.baseUrl.isEmpty then
        { runsExecuteUpdate := runsExec, runsVersionCheck := false,
          initialCheck := s.initialCheck, lastVersionCheckMillis := now }
      else
        { runsExecuteUpdate := runsExec, runsVersionCheck := true,
          initialCheck := s.initialCheck, lastVersionCheckMillis := now }
    else if s.baseUrl.isEmpty then
      { runsExecuteUpdate := runsExec, runsVersionCheck := false,
        initialCheck := true, lastVersionCheckMillis := s.lastVersionCheckMillis }
    else
      { runsExecuteUpdate := runsExec, runsVersionCheck := true,
        initialCheck := true, lastVersionCheckMillis := s.lastVersionCheckMillis }
  else
    { runsExecuteUpdate := runsExec, runsVersionCheck := false,
      initialCheck := s.initialCheck,
      lastVersionCheckMillis := s.lastVersionCheckMillis }

/-- Embedding of the assignment in `OTAWEBUPDATER::setVersionCheckInterval`
(`otaWebUpdater.cpp` line 72): `intervalVersionCheckMillis =
minutes * 60 * 1000` where `minutes` is a `uint32_t`, so both
multiplications are performed modulo `2^32` before the value is widened
to the `uint64_t` member.  Returns the stored interval in
milliseconds. -/
def setVersionCheckIntervalStored (minutes : Nat) : Nat :=
  (minutes % 2 ^ 32) * 60 % 2 ^ 32 * 1000 % 2 ^ 32

/-- JSON document produced by the GET `/config` route. -/
structure OtaConfigJson where
  baseUrl : String
  otaPassword : String
  intervalVersionCheck : Nat
deriving DecidableEq, Repr

set_option linter.unusedVariables false in
/-- Embedding of the GET `/config` handler registered by
`OTAWEBUPDATER::attachWebServer` (`otaWebUpdater.cpp` lines 159..167):
`doc["baseUrl"] = getBaseUrl(); doc["otaPassword"] = "";
doc["intervalVersionCheck"] = intervalVersionCheckMillis / 60 / 1000`.
The stored password is an argument only to show the response never
depends on it. -/
def getConfigHandler (baseUrl otaPassword : String)
    (intervalVersionCheckMillis : Nat) : OtaConfigJson :=
  { baseUrl := baseUrl, otaPassword := "",
    intervalVersionCheck := intervalVersionCheckMillis / 60 / 1000 }

/-! ## Helper lemmas about the chunk-read loop and event traces -/

/-- When the chunk-read loop finalizes, the starting `currentLength`
plus the bytes it wrote equals the declared total length. -/
theorem updateLoop_finalize_sum (total : Int) :
    ∀ (chunks : List Nat) (len cur : Int),
      (updateLoop total chunks len cur).1 = true →
      cur + sumW (updateLoop total chunks len cur).2 = total := by
  intro chunks
  induction chunks with
  | nil => intro len cur h; simp [updateLoop] at h
  | cons size rest ih =>
    intro len cur h
    simp only [updateLoop] at h ⊢
    split_ifs at h ⊢ with hc hs hfin hlen
    · simp only [sumW]
      omega
    · have hrec := ih _ _ h
      simp only [sumW]
      omega
    · have hrec := ih _ _ h
      simp only [sumW]
      omega
    · exact ih _ _ h

/-- With a negative declared total length (`-1`, no Content-Length
header) and a non-negative starting `currentLength`, the chunk-read
loop never finalizes: the equality `currentLength == totalLength` that
gates `Update.end` cannot hold. -/
theorem updateLoop_no_finalize_of_neg (total : Int) (hneg : total < 0) :
    ∀ (chunks : List Nat) (len cur : Int), 0 ≤ cur →
      (updateLoop total chunks len cur).1 = false := by
  intro chunks
  induction chunks with
  | nil => intro len cur _; simp [updateLoop]
  | cons size rest ih =>
    intro len cur hcur
    simp only [updateLoop]
    split_ifs with hc hs hfin hlen
    · exfalso
      omega
    · exact ih _ _ (by omega)
    · exact ih _ _ (by omega)
    · exact ih _ _ hcur
    · rfl

/-- The written-bytes total of a concatenation splits additively. -/
theorem writtenTotal_append (a b : List OtaEvent) :
    writtenTotal (a ++ b) = writtenTotal a + writtenTotal b := by
  induction a with
  | nil => simp [writtenTotal]
  | cons e rest ih => cases e <;> simp [writtenTotal, ih, add_assoc]

/-- The written-bytes total of a pure write trace is the sum of the
chunk sizes. -/
theorem writtenTotal_map_writes (ws : List Nat) :
    writtenTotal (ws.map OtaEvent.updateWrite) = sumW ws := by
  induction ws with
  | nil => simp [writtenTotal, sumW]
  | cons n rest ih => simp [writtenTotal, sumW, ih]

/-- A pure write trace contains no `Update.end` invocation. -/
theorem updateEnd_not_mem_map_writes (ws : List Nat) :
    OtaEvent.updateEnd ∉ ws.map OtaEvent.updateWrite := by
  simp [List.mem_map]

/-! ## Claim theorems -/

/-- Claim C1, counterexample.  The claim says a transfer begun while the
session's running flag is already set fails fast with
`AlreadyInProgress` instead of starting a write.  In the code there is
no such guard: with `otaIsRunning` already `true`, `updateFile` still
calls `Update.begin`, writes a chunk, and completes successfully. -/
theorem updateFile_starts_while_running :
    (updateFile true true "http://ex" "firmware.bin" ⟨200, 4, [4]⟩).ret = true ∧
    OtaEvent.updateBegin FileType.U_FLASH ∈
      (updateFile true true "http://ex" "firmware.bin" ⟨200, 4, [4]⟩).events ∧
    OtaEvent.updateWrite 4 ∈
      (updateFile true true "http://ex" "firmware.bin" ⟨200, 4, [4]⟩).events := by
  decide

/-- Claim C1, amended.  Neither transfer-start path consults the running
flag: with a non-empty base URL, `updateFile` behaves identically
whether `otaIsRunning` was already set or not, and the upload handler's
first chunk (`index == 0`) invokes `Update.begin` regardless of the
prior flag value whenever authentication does not reject the request —
there is no `AlreadyInProgress` fail-fast guard; the flag is set
unconditionally. -/
theorem transfer_start_ignores_running_flag :
    (∀ (allocOk : Bool) (baseUrl filename : String) (resp : HttpResponse),
      baseUrl.isEmpty = false →
      updateFile true allocOk baseUrl filename resp =
        updateFile false allocOk baseUrl filename resp) ∧
    (∀ (flag passwordSet authOk : Bool) (filename : String) (len : Nat)
        (finalChunk : Bool) (env : UploadEnv),
      (passwordSet && !authOk) = false →
      OtaEvent.updateBegin (fileTypeOf filename) ∈
        (uploadChunk flag passwordSet authOk filename 0 len finalChunk env).events) := by
  constructor
  · intro allocOk baseUrl filename resp h
    simp [updateFile, h]
  · intro flag passwordSet authOk filename len finalChunk env h
    by_cases hb : env.beginOk <;> by_cases hw : env.writeOk <;>
      by_cases hf : finalChunk <;> by_cases he : env.endOk <;>
        simp [uploadChunk, h, hb, hw, hf, he]

/-- Claim C1, witness for the amended theorem at concrete inputs. -/
theorem transfer_start_ignores_running_flag_witness :
    (updateFile true true "http://ex" "littlefs.bin" ⟨200, 8, [8]⟩ =
      updateFile false true "http://ex" "littlefs.bin" ⟨200, 8, [8]⟩) ∧
    OtaEvent.updateBegin (fileTypeOf "update.bin") ∈
      (uploadChunk true false true "update.bin" 0 4 false ⟨true, true, true⟩).events :=
  ⟨transfer_start_ignores_running_flag.1 true "http://ex" "littlefs.bin"
      ⟨200, 8, [8]⟩ (by decide),
    transfer_start_ignores_running_flag.2 true false true "update.bin" 4 false
      ⟨true, true, true⟩ (by decide)⟩

/-- Claim C2: the download in `updateFile` is finalized (`Update.end`
reached, `true` returned) only when the accumulated byte count exactly
equals the declared content length: a successful return implies the
bytes written equal `resp.size`; when the declared size is `-1` the
loop's equality test can never hold, so the transfer never finishes
successfully; and `Update.end` is invoked exactly on the successful
path. -/
theorem updateFile_finalize_iff_exact_length
    (flag allocOk : Bool) (baseUrl filename : String) (resp : HttpResponse) :
    ((updateFile flag allocOk baseUrl filename resp).ret = true →
      writtenTotal (updateFile flag allocOk baseUrl filename resp).events = resp.size) ∧
    (resp.size = -1 → (updateFile flag allocOk baseUrl filename resp).ret = false) ∧
    ((updateFile flag allocOk baseUrl filename resp).ret = true ↔
      OtaEvent.updateEnd ∈ (updateFile flag allocOk baseUrl filename resp).events) := by
  by_cases hu : baseUrl.isEmpty
  · simp [updateFile, hu]
  · by_cases ha : allocOk
    · by_cases hs : resp.status = 200
      · by_cases hf : (updateLoop resp.size resp.chunks resp.size 0).1 = true
        · have hsum := updateLoop_finalize_sum resp.size resp.chunks resp.size 0 hf
          refine ⟨?_, ?_, ?_⟩
          · intro _
            simp [updateFile, hu, ha, hs, hf, writtenTotal, writtenTotal_append,
              writtenTotal_map_writes]
            omega
          · intro hneg
            exfalso
            have hno := updateLoop_no_finalize_of_neg resp.size (by omega)
              resp.chunks resp.size 0 (by omega)
            rw [hno] at hf
            exact absurd hf (by simp)
          · simp [updateFile, hu, ha, hs, hf]
        · refine ⟨?_, ?_, ?_⟩
          · intro hret
            exfalso
            have : (updateFile flag allocOk baseUrl filename resp).ret = false := by
              simp [updateFile, hu, ha, hs, hf]
            rw [hret] at this
            exact absurd this (by simp)
          · intro _
            simp [updateFile, hu, ha, hs, hf]
          · simp [updateFile, hu, ha, hs, hf, updateEnd_not_mem_map_writes]
      · simp [updateFile, hu, ha, hs]
    · simp [updateFile, hu, ha]

/-- Claim C2, witness: a download of declared size 4 delivered in one
4-byte chunk finishes successfully with exactly 4 bytes written. -/
theorem updateFile_finalize_iff_exact_length_witness :
    (updateFile false true "http://ex" "firmware.bin" ⟨200, 4, [4]⟩).ret = true ∧
    writtenTotal (updateFile false true "http://ex" "firmware.bin" ⟨200, 4, [4]⟩).events
      = (4 : Int) :=
  ⟨by decide,
    (updateFile_finalize_iff_exact_length false true "http://ex" "firmware.bin"
      ⟨200, 4, [4]⟩).1 (by decide)⟩

/-- Claim C3: with a valid metadata response (date and revision present,
non-empty, not the literal `"null"`) and the flag not already set,
`checkAvailableVersion` sets `newReleaseAvailable` exactly when the
remote date string is strictly greater than the local one under
byte-wise (`strcmp`) lexicographic comparison. -/
theorem checkAvailableVersion_lexicographic
    (baseUrl currentFwDate : String) (rel0 : Bool) (date revision : String)
    (hurl : baseUrl.isEmpty = false)
    (hd : date.isEmpty = false) (hr : revision.isEmpty = false)
    (hdn : (date == "null") = false) (hrn : (revision == "null") = false)
    (h0 : rel0 = false) :
    (checkAvailableVersion baseUrl currentFwDate rel0 date revision).newReleaseAvailable
      = strLt currentFwDate date := by
  subst h0
  by_cases hlt : strLt currentFwDate date <;>
    simp [checkAvailableVersion, hurl, hd, hr, hdn, hrn, hlt]

/-- Claim C3, witness: local date `"2024-01-01"` — remote `"2024-06-15"`
triggers the flag, remote `"2023-12-01"` does not, and an equal remote
date does not. -/
theorem checkAvailableVersion_lexicographic_witness :
    (checkAvailableVersion "http://ex" "2024-01-01" false "2024-06-15" "2.0").newReleaseAvailable
        = true ∧
    (checkAvailableVersion "http://ex" "2024-01-01" false "2023-12-01" "2.0").newReleaseAvailable
        = false ∧
    (checkAvailableVersion "http://ex" "2024-01-01" false "2024-01-01" "2.0").newReleaseAvailable
        = false :=
  ⟨(checkAvailableVersion_lexicographic "http://ex" "2024-01-01" false "2024-06-15" "2.0"
      (by decide) (by decide) (by decide) (by decide) (by decide) rfl).trans (by decide),
    (checkAvailableVersion_lexicographic "http://ex" "2024-01-01" false "2023-12-01" "2.0"
      (by decide) (by decide) (by decide) (by decide) (by decide) rfl).trans (by decide),
    (checkAvailableVersion_lexicographic "http://ex" "2024-01-01" false "2024-01-01" "2.0"
      (by decide) (by decide) (by decide) (by decide) (by decide) rfl).trans (by decide)⟩

/-- Claim C4: whenever the metadata `date` or `revision` field is
absent (ArduinoJson renders it as the literal string `"null"`), empty,
or the literal `"null"`, `checkAvailableVersion` returns `false` and
leaves `newReleaseAvailable` unchanged, so no download is initiated. -/
theorem checkAvailableVersion_invalid_metadata
    (baseUrl currentFwDate : String) (rel0 : Bool) (date revision : String)
    (h : date.isEmpty = true ∨ revision.isEmpty = true ∨
      (date == "null") = true ∨ (revision == "null") = true) :
    (checkAvailableVersion baseUrl currentFwDate rel0 date revision).ret = false ∧
    (checkAvailableVersion baseUrl currentFwDate rel0 date revision).newReleaseAvailable
      = rel0 := by
  by_cases hurl : baseUrl.isEmpty
  · simp [checkAvailableVersion, hurl]
  · have hcond : (date.isEmpty || revision.isEmpty ||
        date == "null" || revision == "null") = true := by
      rcases h with h | h | h | h <;> simp [h]
    simp [checkAvailableVersion, hurl, hcond]

/-- Claim C4, witness: a response whose `date` parses to `"null"` fails
the check and leaves the flag clear. -/
theorem checkAvailableVersion_invalid_metadata_witness :
    (checkAvailableVersion "http://ex" "2024-01-01" false "null" "2.0").ret = false ∧
    (checkAvailableVersion "http://ex" "2024-01-01" false "null" "2.0").newReleaseAvailable
      = false :=
  checkAvailableVersion_invalid_metadata "http://ex" "2024-01-01" false "null" "2.0"
    (by decide)

/-- Claim C5: with a configured (non-empty) base URL, `executeUpdate`
attempts the transfers in the fixed order `littlefs.bin` first and then
`firmware.bin`, and the `firmware.bin` transfer happens only if the
`littlefs.bin` transfer succeeded (`&&` short-circuits). -/
theorem executeUpdate_order (flag : Bool) (baseUrl : String) (env1 env2 : Env)
    (h : baseUrl.isEmpty = false) :
    (executeUpdate flag baseUrl env1 env2).transfers = [("littlefs.bin", false)] ∨
    ∃ b, (executeUpdate flag baseUrl env1 env2).transfers =
      [("littlefs.bin", true), ("firmware.bin", b)] := by
  by_cases h1 : (updateFile true env1.allocOk baseUrl "littlefs.bin" env1.resp).ret = true
  · right
    by_cases h2 : (updateFile (updateFile true env1.allocOk baseUrl "littlefs.bin"
        env1.resp).otaIsRunning env2.allocOk baseUrl "firmware.bin" env2.resp).ret = true
    · exact ⟨true, by simp [executeUpdate, h, h1, h2]⟩
    · exact ⟨false, by simp [executeUpdate, h, h1, h2]⟩
  · left
    simp [executeUpdate, h, h1]

/-- Claim C5, witness at a concrete environment where both downloads
deliver their declared bytes. -/
theorem executeUpdate_order_witness :
    (executeUpdate false "http://ex" ⟨true, ⟨200, 4, [4]⟩⟩
        ⟨true, ⟨200, 4, [4]⟩⟩).transfers = [("littlefs.bin", false)] ∨
    ∃ b, (executeUpdate false "http://ex" ⟨true, ⟨200, 4, [4]⟩⟩
        ⟨true, ⟨200, 4, [4]⟩⟩).transfers = [("littlefs.bin", true), ("firmware.bin", b)] :=
  executeUpdate_order false "http://ex" ⟨true, ⟨200, 4, [4]⟩⟩ ⟨true, ⟨200, 4, [4]⟩⟩
    (by decide)

/-- Claim C6: with a configured base URL, `executeUpdate` invokes
`ESP.restart()` at most once, exactly when both transfers succeeded;
on any transfer failure no restart occurs, the running flag is cleared
and the failure is logged. -/
theorem executeUpdate_restart_once_on_success (flag : Bool) (baseUrl : String)
    (env1 env2 : Env) (h : baseUrl.isEmpty = false) :
    (executeUpdate flag baseUrl env1 env2).restarts ≤ 1 ∧
    ((executeUpdate flag baseUrl env1 env2).restarts = 1 ↔
      (executeUpdate flag baseUrl env1 env2).transfers =
        [("littlefs.bin", true), ("firmware.bin", true)]) ∧
    ((executeUpdate flag baseUrl env1 env2).restarts = 0 →
      (executeUpdate flag baseUrl env1 env2).otaIsRunning = false ∧
      (executeUpdate flag baseUrl env1 env2).failureLogged = true) := by
  by_cases h1 : (updateFile true env1.allocOk baseUrl "littlefs.bin" env1.resp).ret = true
  · by_cases h2 : (updateFile (updateFile true env1.allocOk baseUrl "littlefs.bin"
        env1.resp).otaIsRunning env2.allocOk baseUrl "firmware.bin" env2.resp).ret = true
    · simp [executeUpdate, h, h1, h2]
    · simp [executeUpdate, h, h1, h2]
  · simp [executeUpdate, h, h1]

/-- Claim C6, witness: when the filesystem download stalls (no bytes
arrive), no restart happens, the flag is cleared and the failure is
logged. -/
theorem executeUpdate_restart_once_on_success_witness :
    (executeUpdate false "http://ex" ⟨true, ⟨200, 4, []⟩⟩
        ⟨true, ⟨200, 4, [4]⟩⟩).restarts ≤ 1 ∧
    ((executeUpdate false "http://ex" ⟨true, ⟨200, 4, []⟩⟩
        ⟨true, ⟨200, 4, [4]⟩⟩).restarts = 1 ↔
      (executeUpdate false "http://ex" ⟨true, ⟨200, 4, []⟩⟩
        ⟨true, ⟨200, 4, [4]⟩⟩).transfers =
        [("littlefs.bin", true), ("firmware.bin", true)]) ∧
    ((executeUpdate false "http://ex" ⟨true, ⟨200, 4, []⟩⟩
        ⟨true, ⟨200, 4, [4]⟩⟩).restarts = 0 →
      (executeUpdate false "http://ex" ⟨true, ⟨200, 4, []⟩⟩
        ⟨true, ⟨200, 4, [4]⟩⟩).otaIsRunning = false ∧
      (executeUpdate false "http://ex" ⟨true, ⟨200, 4, []⟩⟩
        ⟨true, ⟨200, 4, [4]⟩⟩).failureLogged = true) :=
  executeUpdate_restart_once_on_success false "http://ex" ⟨true, ⟨200, 4, []⟩⟩
    ⟨true, ⟨200, 4, [4]⟩⟩ (by decide)

/-- Claim C7: if allocation of the 128 KiB staging buffer fails,
`updateFile` returns `false` before any flash operation (no
`Update.begin` or `Update.write` in the trace) and the running flag is
cleared. -/
theorem updateFile_alloc_failure_aborts (flag : Bool) (baseUrl filename : String)
    (resp : HttpResponse) (h : baseUrl.isEmpty = false) :
    (updateFile flag false baseUrl filename resp).ret = false ∧
    (updateFile flag false baseUrl filename resp).events = [] ∧
    (updateFile flag false baseUrl filename resp).otaIsRunning = false := by
  simp [updateFile, h]

/-- Claim C7, witness at a concrete download request. -/
theorem updateFile_alloc_failure_aborts_witness :
    (updateFile true false "http://ex" "firmware.bin" ⟨200, 4, [4]⟩).ret = false ∧
    (updateFile true false "http://ex" "firmware.bin" ⟨200, 4, [4]⟩).events = [] ∧
    (updateFile true false "http://ex" "firmware.bin" ⟨200, 4, [4]⟩).otaIsRunning = false :=
  updateFile_alloc_failure_aborts true "http://ex" "firmware.bin" ⟨200, 4, [4]⟩
    (by decide)

/-- Claim C8, counterexample.  The claim says every exit path of
`executeUpdate`/`updateFile` that does not restart the device clears
the running flag.  The early return on an empty base URL does not: it
is taken before the flag is set and leaves a previously set flag
untouched. -/
theorem updateFile_emptyUrl_keeps_flag :
    (updateFile true true "" "firmware.bin" ⟨200, 0, []⟩).ret = false ∧
    (updateFile true true "" "firmware.bin" ⟨200, 0, []⟩).otaIsRunning = true := by
  decide

/-- Claim C8, amended.  With a configured (non-empty) base URL — the
only situation in which these functions set the running flag — every
exit path of `updateFile` ends with the flag cleared, every exit path
of `executeUpdate` that does not restart ends with the flag cleared,
and a `loop` tick runs `executeUpdate` again whenever
`newReleaseAvailable` is still set, so a failed attempt never locks the
session out. -/
theorem running_flag_cleared_on_configured_paths
    (flag allocOk : Bool) (baseUrl filename : String) (resp : HttpResponse)
    (env1 env2 : Env) (s : LoopState) (now : Nat)
    (h : baseUrl.isEmpty = false) :
    (updateFile flag allocOk baseUrl filename resp).otaIsRunning = false ∧
    ((executeUpdate flag baseUrl env1 env2).restarts = 0 →
      (executeUpdate flag baseUrl env1 env2).otaIsRunning = false) ∧
    (s.newReleaseAvailable = true → (loopTick s now).runsExecuteUpdate = true) := by
  refine ⟨?_, ?_, ?_⟩
  · by_cases ha : allocOk
    · by_cases hs : resp.status = 200
      · by_cases hf : (updateLoop resp.size resp.chunks resp.size 0).1 = true <;>
          simp [updateFile, h, ha, hs, hf]
      · simp [updateFile, h, ha, hs]
    · simp [updateFile, h, ha]
  · by_cases h1 : (updateFile true env1.allocOk baseUrl "littlefs.bin" env1.resp).ret = true
    · by_cases h2 : (updateFile (updateFile true env1.allocOk baseUrl "littlefs.bin"
          env1.resp).otaIsRunning env2.allocOk baseUrl "firmware.bin" env2.resp).ret = true
      · simp [executeUpdate, h, h1, h2]
      · simp [executeUpdate, h, h1, h2]
    · simp [executeUpdate, h, h1]
  · intro hn
    simp only [loopTick]
    split_ifs <;> simp [hn]

/-- Claim C8, witness for the amended theorem at concrete inputs. -/
theorem running_flag_cleared_on_configured_paths_witness :
    (updateFile true true "http://ex" "firmware.bin" ⟨200, 4, []⟩).otaIsRunning = false ∧
    ((executeUpdate true "http://ex" ⟨true, ⟨200, 4, []⟩⟩
        ⟨true, ⟨200, 4, [4]⟩⟩).restarts = 0 →
      (executeUpdate true "http://ex" ⟨true, ⟨200, 4, []⟩⟩
        ⟨true, ⟨200, 4, [4]⟩⟩).otaIsRunning = false) ∧
    ((⟨true, true, true, 0, 60000, "http://ex"⟩ : LoopState).newReleaseAvailable = true →
      (loopTick ⟨true, true, true, 0, 60000, "http://ex"⟩ 0).runsExecuteUpdate = true) :=
  running_flag_cleared_on_configured_paths true true "http://ex" "firmware.bin"
    ⟨200, 4, []⟩ ⟨true, ⟨200, 4, []⟩⟩ ⟨true, ⟨200, 4, [4]⟩⟩
    ⟨true, true, true, 0, 60000, "http://ex"⟩ 0 (by decide)

/-- Claim C9, counterexample.  The claim says `setVersionCheckInterval`
enforces a minimum interval of at least one minute and that an argument
of `0` does not produce a zero interval.  The assignment has no floor:
`0` minutes stores a zero interval. -/
theorem setVersionCheckInterval_zero :
    setVersionCheckIntervalStored 0 = 0 := by
  decide

/-- Claim C9, amended.  `setVersionCheckInterval` stores exactly
`minutes * 60 * 1000` milliseconds computed in 32-bit unsigned
arithmetic (i.e. `minutes * 60000 mod 2^32`), with no minimum floor:
in particular `0` yields a zero interval. -/
theorem setVersionCheckInterval_formula (minutes : Nat) :
    setVersionCheckIntervalStored minutes = minutes * 60000 % 2 ^ 32 := by
  have h1 : (minutes % 2 ^ 32) * 60 ≡ minutes * 60 [MOD 2 ^ 32] :=
    (Nat.mod_modEq minutes (2 ^ 32)).mul_right 60
  have h3 : (minutes % 2 ^ 32) * 60 % 2 ^ 32 ≡ minutes * 60 [MOD 2 ^ 32] :=
    (Nat.mod_modEq _ _).trans h1
  have h4 : (minutes % 2 ^ 32) * 60 % 2 ^ 32 * 1000 ≡ minutes * 60 * 1000 [MOD 2 ^ 32] :=
    h3.mul_right 1000
  have h5 : (minutes % 2 ^ 32) * 60 % 2 ^ 32 * 1000 % 2 ^ 32
      = minutes * 60 * 1000 % 2 ^ 32 := h4
  unfold setVersionCheckIntervalStored
  rw [h5, Nat.mul_assoc]

/-- Claim C10: the GET config endpoint never reveals the stored OTA
password — the JSON document it produces is identical for any two
stored password values, and its `otaPassword` field is always the
empty string. -/
theorem getConfigHandler_no_password_leak
    (baseUrl p1 p2 : String) (intervalMs : Nat) :
    getConfigHandler baseUrl p1 intervalMs = getConfigHandler baseUrl p2 intervalMs ∧
    (getConfigHandler baseUrl p1 intervalMs).otaPassword = "" :=
  ⟨rfl, rfl⟩
